import Mathlib

/-!
Verification of the file-intake and processing-configuration workflow of the
`vss-secure-upload-page` repository, as a shallow embedding in Lean 4.

Each definition mirrors one function or constant of the TypeScript source:
  - `validateFile`, `ALLOWED_FILE_TYPES`, `MAX_FILE_SIZE`, `simulateUpload`
    (modelled as `simStep`/`simRun`), `removeFile`
    from `src/app/components/FileUpload.tsx`;
  - `validateProfileImage`, `PROFILE_IMAGE_TYPES`, `MAX_PROFILE_IMAGE_SIZE`
    from `src/app/components/ProfileSection.tsx`;
  - `canProceed`, `handleSaveSettings`, `getEstimatedSize`,
    `getCompressionReduction`, the draft state and its toggle events
    from `ProcessingSettings` (`src/unnamed/part_002`);
  - the top-level `App` page state machine (`handleProcessAnother`,
    the save-settings submission `submitSettings`) from `src/unnamed/part_003`;
  - `fileUrl` from `CompletePage` (`src/unnamed/part_000`).

JavaScript strings are modelled as Lean `String`, `number`-valued byte sizes
as `Nat`, and the exact arithmetic of `Math.round` on the fixed rational
constant `0.4` as `ℚ` (the quantities involved are integers scaled by tenths,
far inside the range where IEEE doubles and exact rationals agree).
-/

/-! ## Definitions: FileCandidate validator (`FileUpload.tsx`, `ProfileSection.tsx`) -/

/-- From `FileUpload.tsx` lines 15-26: the `ALLOWED_FILE_TYPES` constant,
the media-type allow-list for general intake. -/
def ALLOWED_FILE_TYPES : List String :=
  [ "image/png"
  , "image/jpeg"
  , "image/jpg"
  , "image/gif"
  , "image/webp"
  , "application/pdf"
  , "application/msword"
  , "application/vnd.openxmlformats-officedocument.wordprocessingml.document"
  , "text/plain"
  , "application/zip" ]

/-- From `FileUpload.tsx` line 28: `MAX_FILE_SIZE = 10 * 1024 * 1024`. -/
def MAX_FILE_SIZE : Nat := 10 * 1024 * 1024

/-- From `FileUpload.tsx` lines 38-46: `validateFile`.  Returns
`some errorMessage` on rejection, `none` on acceptance, checking the
type allow-list first and the size ceiling second, exactly as the source:

  if (!ALLOWED_FILE_TYPES.includes(file.type)) return 'File type not allowed';
  if (file.size > MAX_FILE_SIZE) return 'File size exceeds 10MB limit';
  return null; -/
def validateFile (fileType : String) (fileSize : Nat) : Option String :=
  if !(ALLOWED_FILE_TYPES.contains fileType) then some "File type not allowed"
  else if MAX_FILE_SIZE < fileSize then some "File size exceeds 10MB limit"
  else none

/-- From `ProfileSection.tsx` line 19: `PROFILE_IMAGE_TYPES`, the narrowed
allow-list for profile images. -/
def PROFILE_IMAGE_TYPES : List String :=
  ["image/png", "image/jpeg", "image/jpg", "image/gif"]

/-- From `ProfileSection.tsx` line 20: `MAX_PROFILE_IMAGE_SIZE = 5 * 1024 * 1024`. -/
def MAX_PROFILE_IMAGE_SIZE : Nat := 5 * 1024 * 1024

/-- From `ProfileSection.tsx` lines 46-54: `validateProfileImage`, same shape
as `validateFile` with the narrower list and the 5 MiB ceiling. -/
def validateProfileImage (fileType : String) (fileSize : Nat) : Option String :=
  if !(PROFILE_IMAGE_TYPES.contains fileType) then
    some "Only PNG, JPG, JPEG, and GIF formats are allowed"
  else if MAX_PROFILE_IMAGE_SIZE < fileSize then
    some "Image size must be less than 5MB"
  else none

/-! ## Definitions: Processing Configuration Builder (`ProcessingSettings`, part_002) -/

/-- JavaScript `String.prototype.trim`: drop whitespace from both ends.
`Char.isWhitespace` covers the ASCII whitespace characters (space, tab,
newline, carriage return), which is the fragment relevant here; JavaScript
additionally trims some rarer Unicode space characters. -/
def jsTrim (s : String) : String :=
  String.mk (((s.data.dropWhile Char.isWhitespace).reverse.dropWhile
    Char.isWhitespace).reverse)

/-- The draft configuration state of the `ProcessingSettings` component
(part_002 lines 57-60): the three `useState` hooks `encryptEnabled`,
`password` and `compressEnabled` (`showPassword` is display-only). -/
structure DraftState where
  encryptEnabled : Bool
  password : String
  compressEnabled : Bool
  deriving DecidableEq

/-- Initial draft when the component mounts (part_002 lines 57-60):
`useState(false)`, `useState('')`, `useState(false)`. -/
def initialDraft : DraftState := { encryptEnabled := false, password := "", compressEnabled := false }

/-- From part_002 line 97:
`const canProceed = !encryptEnabled || (encryptEnabled && password.trim().length >= 6);` -/
def canProceed (d : DraftState) : Bool :=
  !d.encryptEnabled || (d.encryptEnabled && decide (6 ≤ (jsTrim d.password).length))

/-- From part_002 lines 14-19: the `ProcessingConfig` interface.  Its fields
are exactly `compress`, `encrypt`, `password?` and `outputFileName`; it has
no ordering field. -/
structure ProcessingConfig where
  compress : Bool
  encrypt : Bool
  password : Option String
  outputFileName : String
  deriving DecidableEq

/-- From part_002 lines 81-89: `handleSaveSettings` assembles the config

  { encrypt: encryptEnabled,
    password: encryptEnabled ? password : undefined,
    compress: compressEnabled,
    outputFileName: fileName }

from the draft and the candidate file name (there is no output-name input in
the component, so `outputFileName` is always the candidate's name). -/
def handleSaveSettings (d : DraftState) (fileName : String) : ProcessingConfig :=
  { encrypt := d.encryptEnabled
  , password := if d.encryptEnabled then some d.password else none
  , compress := d.compressEnabled
  , outputFileName := fileName }

/-- The spec's configuration-error taxonomy (the source surfaces
`WeakPassword` as the disabled Save button plus the inline message at
part_002 lines 181-186 and 261-268; no output-name input exists, so
`EmptyOutputName` is never produced). -/
inductive ConfigurationError where
  | WeakPassword
  | EmptyOutputName
  deriving DecidableEq

/-- Submission of the draft (`build()` in the spec's terms): the Save
Settings button is `disabled={!canProceed}` (part_002 line 253), so clicking
it hands `handleSaveSettings` to `onProcess` exactly when `canProceed`
holds; otherwise nothing is submitted, which the spec names the
`WeakPassword` failure. -/
def build (d : DraftState) (fileName : String) :
    Except ConfigurationError ProcessingConfig :=
  if canProceed d then Except.ok (handleSaveSettings d fileName)
  else Except.error ConfigurationError.WeakPassword

/-- User intents the `ProcessingSettings` rendering sends into the draft:
the two toggle switches (part_002 lines 141-144 and 206-209), the password
input (line 165) and the reset button (lines 91-95). -/
inductive SettingsEvent where
  | setEncrypt (b : Bool)
  | setCompress (b : Bool)
  | setPassword (p : String)
  | reset
  deriving DecidableEq

/-- Effect of one user intent on the draft: each setter replaces its own
field (`setEncryptEnabled`, `setCompressEnabled`, `setPassword`), and
`handleReset` (part_002 lines 91-95) restores the initial values. -/
def applyEvent (d : DraftState) : SettingsEvent → DraftState
  | SettingsEvent.setEncrypt b => { d with encryptEnabled := b }
  | SettingsEvent.setCompress b => { d with compressEnabled := b }
  | SettingsEvent.setPassword p => { d with password := p }
  | SettingsEvent.reset => initialDraft

/-- A whole user interaction: the events applied in order. -/
def applyEvents (d : DraftState) (es : List SettingsEvent) : DraftState :=
  es.foldl applyEvent d

/-- From part_002 lines 229-239: the conditional processing-order note.
When both flags are enabled the component renders the fixed text
"Files will be first encrypted, then compressed." — a display note, not a
field of `ProcessingConfig`. -/
def processingOrderNote (d : DraftState) : Option String :=
  if d.encryptEnabled && d.compressEnabled then
    some "Files will be first encrypted, then compressed."
  else none

/-- From part_002 lines 70-74: `getCompressionReduction` returns `0` when
compression is off and the fixed constant `0.4` when it is on. -/
def getCompressionReduction (compressEnabled : Bool) : ℚ :=
  if !compressEnabled then 0 else 0.4

/-- JavaScript `Math.round`: nearest integer, with halves rounded toward
positive infinity. -/
def jsRound (x : ℚ) : ℤ := ⌊x + 1 / 2⌋

/-- From part_002 lines 76-79: `getEstimatedSize` returns the file size
unchanged when compression is off and otherwise
`Math.round(fileSize * (1 - getCompressionReduction()))`. -/
def getEstimatedSize (compressEnabled : Bool) (fileSize : Nat) : ℤ :=
  if !compressEnabled then (fileSize : ℤ)
  else jsRound ((fileSize : ℚ) * (1 - getCompressionReduction compressEnabled))

/-- Modelled from the spec for comparison with `getEstimatedSize`: the
claimed formula `floor(originalSize * (1 - factor))` with the fixed factor
`0.4` (spec §4.3), and the original size when compression is off. -/
def specEstimatedSize (compressEnabled : Bool) (fileSize : Nat) : ℤ :=
  if !compressEnabled then (fileSize : ℤ)
  else ⌊(fileSize : ℚ) * (1 - (0.4 : ℚ))⌋

/-! ## Definitions: Transfer Tracker (`FileUpload.tsx`) -/

/-- The descriptor of a selected file: the `name`, `size` and `type`
properties of a DOM `File` that the source reads. -/
structure FileDesc where
  name : String
  size : Nat
  type : String
  deriving DecidableEq

/-- From `FileUpload.tsx` line 10: the status union
`'uploading' | 'success' | 'error'`. -/
inductive UploadStatus where
  | uploading
  | success
  | error
  deriving DecidableEq

/-- From `FileUpload.tsx` lines 7-13: the `UploadedFile` interface
`{ id, file, status, progress, error? }`. -/
structure UploadedFile where
  id : String
  file : FileDesc
  status : UploadStatus
  progress : Nat
  error : Option String
  deriving DecidableEq

/-- From `FileUpload.tsx` lines 85-90: the entry created for a candidate
that passed validation: status `'uploading'`, progress `0`, no error. -/
def initialUpload (i : String) (fd : FileDesc) : UploadedFile :=
  { id := i, file := fd, status := UploadStatus.uploading, progress := 0, error := none }

/-- From `FileUpload.tsx` lines 129-131: `removeFile` drops the entry with
the given id from the list (`prev.filter(f => f.id !== id)`). -/
def removeFile (fid : String) (files : List UploadedFile) : List UploadedFile :=
  files.filter fun f => f.id != fid

/-- The state of one `simulateUpload` run (`FileUpload.tsx` lines 48-65):
the closure-local `progress` counter, whether the interval is still
scheduled (`active` becomes false at `clearInterval`), and the component's
`files` list that the timer callback updates. -/
structure SimState where
  progress : Nat
  active : Bool
  files : List UploadedFile
  deriving DecidableEq

/-- One firing of the `setInterval` callback of `simulateUpload`
(`FileUpload.tsx` lines 50-64): if the interval was cleared the callback no
longer fires (identity); otherwise `progress += 10`, and either the entry
with the matching id is marked `'success'` with progress `100` and the
interval is cleared (`progress >= 100`), or the entry's progress is set to
the new value. -/
def simStep (fileId : String) (s : SimState) : SimState :=
  if s.active then
    let p := s.progress + 10
    if 100 ≤ p then
      { progress := p
      , active := false
      , files := s.files.map fun f =>
          if f.id = fileId then
            { f with status := UploadStatus.success, progress := 100 }
          else f }
    else
      { progress := p
      , active := true
      , files := s.files.map fun f =>
          if f.id = fileId then { f with progress := p } else f }
  else s

/-- The tracker after `n` firings of the timer callback. -/
def simRun (fileId : String) (init : SimState) : Nat → SimState
  | 0 => init
  | n + 1 => simStep fileId (simRun fileId init n)

/-- The tracker state at the start of `simulateUpload` for one freshly
accepted candidate: local progress `0`, interval scheduled, and the entry
as `handleFiles` created it. -/
def initSim (i : String) (fd : FileDesc) : SimState :=
  { progress := 0, active := true, files := [initialUpload i fd] }

/-- The tracked entry of a single-candidate run after `n` timer firings. -/
def trackedFile (i : String) (fd : FileDesc) (n : Nat) : UploadedFile :=
  ((simRun i (initSim i fd) n).files).headD (initialUpload i fd)

/-! ## Definitions: Workflow Controller (`App`, part_003) -/

/-- From part_003 line 10: `type Page = "upload" | "processing" | "complete" | "profile"`. -/
inductive Page where
  | upload
  | processing
  | complete
  | profile
  deriving DecidableEq

/-- The top-level state of `App` (part_003 lines 13-16): the four `useState`
hooks, together with the component-local state of the currently mounted
stage components: `uploadFiles` is `FileUpload`'s `files` list
(`FileUpload.tsx` line 35, initial `[]`) and `draft` is the
`ProcessingSettings` draft (part_002 lines 57-60), present only while that
component is mounted. -/
structure SystemState where
  isLoggedIn : Bool
  username : String
  currentPage : Page
  selectedFile : Option FileDesc
  uploadFiles : List UploadedFile
  draft : Option DraftState
  deriving DecidableEq

/-- Clicking Save Settings on the mounted draft: the button is
`disabled={!canProceed}` (part_002 line 253); when enabled, `onProcess`
reaches `handleProcessingStart` (part_003 lines 39-45), whose
`setTimeout(..., 1500)` ends with `setCurrentPage("complete")`; the latency
is collapsed to its observable outcome.  A click with a weak password is a
no-op: the state is returned unchanged. -/
def submitSettings (s : SystemState) : SystemState :=
  match s.draft with
  | none => s
  | some d =>
    if canProceed d then { s with currentPage := Page.complete, draft := none } else s

/-- From part_003 lines 47-50: `handleProcessAnother` sets
`selectedFile` to `null` and the page back to `"upload"`.  Leaving the
completed page unmounts `ProcessingSettings` and remounts `FileUpload`, so
their component-local states restart at their `useState` initial values:
the files list at `[]` (`FileUpload.tsx` line 35) and no draft. -/
def handleProcessAnother (s : SystemState) : SystemState :=
  { s with selectedFile := none, currentPage := Page.upload, uploadFiles := [], draft := none }

/-! ## Definitions: Artifact Reference Generator (`CompletePage`, part_000) -/

/-- From part_000 lines 29-30:
``const fileUrl = `https://files.example.com/download/${fileName}`;`` —
plain template-literal interpolation of the file name, with no
`encodeURIComponent` or other escaping. -/
def fileUrl (fileName : String) : String :=
  "https://files.example.com/download/" ++ fileName

/-! ## Supporting lemmas -/

lemma jsTrim_length_le (s : String) : (jsTrim s).length ≤ s.length := by
  have l1 := (List.dropWhile_sublist (l := s.data) Char.isWhitespace).length_le
  have l2 := (List.dropWhile_sublist
    (l := (s.data.dropWhile Char.isWhitespace).reverse) Char.isWhitespace).length_le
  simp only [List.length_reverse] at l2
  simp only [jsTrim, String.length, List.length_reverse]
  omega

lemma simStep_files_of_absent (fid : String) (s : SimState)
    (h : ∀ f ∈ s.files, f.id ≠ fid) : (simStep fid s).files = s.files := by
  have hmap : ∀ g : UploadedFile → UploadedFile,
      (s.files.map fun f => if f.id = fid then g f else f) = s.files := by
    intro g
    calc (s.files.map fun f => if f.id = fid then g f else f)
        = s.files.map id := List.map_congr_left fun f hf => if_neg (h f hf)
      _ = s.files := List.map_id s.files
  unfold simStep
  by_cases ha : s.active
  · simp only [ha, if_true]
    by_cases hp : 100 ≤ s.progress + 10 <;> simp [hp, hmap]
  · simp [ha]

lemma simRun_succ (fileId : String) (init : SimState) (n : Nat) :
    simRun fileId init (n + 1) = simStep fileId (simRun fileId init n) := rfl

/-- Closed form of a single-candidate `simulateUpload` run: for the first
nine firings the entry is still `'uploading'` with progress `10 * n`; from
the tenth firing on, the interval is cleared and the entry is `'success'`
with progress frozen at `100`. -/
lemma simRun_init_closed (i : String) (fd : FileDesc) (n : Nat) :
    simRun i (initSim i fd) n =
      if n ≤ 9 then
        { progress := 10 * n, active := true
        , files := [{ id := i, file := fd, status := UploadStatus.uploading
                    , progress := 10 * n, error := none }] }
      else
        { progress := 100, active := false
        , files := [{ id := i, file := fd, status := UploadStatus.success
                    , progress := 100, error := none }] } := by
  induction n with
  | zero => simp [simRun, initSim, initialUpload]
  | succ n ih =>
    rw [simRun_succ, ih]
    by_cases h9 : n ≤ 9
    · by_cases h8 : n ≤ 8
      · have ha : n + 1 ≤ 9 := by omega
        have hb : ¬ 100 ≤ 10 * n + 10 := by omega
        rw [if_pos h9, if_pos ha]
        simp [simStep, hb, Nat.mul_succ]
      · have hn : n = 9 := by omega
        subst hn
        rw [if_pos h9, if_neg (by omega : ¬ 9 + 1 ≤ 9)]
        simp [simStep]
    · have hb : ¬ n + 1 ≤ 9 := by omega
      rw [if_neg h9, if_neg hb]
      simp [simStep]

/-! ## Claims -/

/-- Claim C3: a descriptor whose media type is outside the allow-list is
rejected with the unsupported-type message, whatever its byte size: the
type check is first in `validateFile`, so even an oversized file of a
disallowed type is rejected for its type. -/
theorem c3_unsupported_type_first (fileType : String) (fileSize : Nat)
    (h : fileType ∉ ALLOWED_FILE_TYPES) :
    validateFile fileType fileSize = some "File type not allowed" := by
  simp [validateFile, h]

/-- Claim C3, witness: the executable `x-msdownload` of 20 MiB is rejected
for its type, not its size. -/
theorem c3_unsupported_type_first_witness :
    "application/x-msdownload" ∉ ALLOWED_FILE_TYPES ∧
      validateFile "application/x-msdownload" (20 * 1024 * 1024) =
        some "File type not allowed" :=
  ⟨by decide, c3_unsupported_type_first "application/x-msdownload"
    (20 * 1024 * 1024) (by decide)⟩

/-- Claim C4: an allowed type with byte size strictly over 10 MiB is rejected
as too large; for profile images the ceiling is 5 MiB and the allow-list is
exactly the four raster image types, each of which is also in the general
allow-list. -/
theorem c4_size_ceilings (t : String) (n : Nat) (t2 : String) (m : Nat)
    (h1 : t ∈ ALLOWED_FILE_TYPES) (h2 : 10 * 1024 * 1024 < n)
    (h3 : t2 ∈ PROFILE_IMAGE_TYPES) (h4 : 5 * 1024 * 1024 < m) :
    validateFile t n = some "File size exceeds 10MB limit" ∧
      validateProfileImage t2 m = some "Image size must be less than 5MB" ∧
      PROFILE_IMAGE_TYPES = ["image/png", "image/jpeg", "image/jpg", "image/gif"] ∧
      ∀ x ∈ PROFILE_IMAGE_TYPES, x ∈ ALLOWED_FILE_TYPES := by
  refine ⟨?_, ?_, rfl, by decide⟩
  · simp [validateFile, MAX_FILE_SIZE, h1, h2]
  · simp [validateProfileImage, MAX_PROFILE_IMAGE_SIZE, h3, h4]

/-- Claim C4, witness: a 10 MiB + 1 byte PDF is too large for general intake
and a 5 MiB + 1 byte PNG is too large as a profile image. -/
theorem c4_size_ceilings_witness :
    "application/pdf" ∈ ALLOWED_FILE_TYPES ∧
      10 * 1024 * 1024 < 10 * 1024 * 1024 + 1 ∧
      "image/png" ∈ PROFILE_IMAGE_TYPES ∧
      5 * 1024 * 1024 < 5 * 1024 * 1024 + 1 ∧
      (validateFile "application/pdf" (10 * 1024 * 1024 + 1) =
          some "File size exceeds 10MB limit" ∧
        validateProfileImage "image/png" (5 * 1024 * 1024 + 1) =
          some "Image size must be less than 5MB" ∧
        PROFILE_IMAGE_TYPES = ["image/png", "image/jpeg", "image/jpg", "image/gif"] ∧
        ∀ x ∈ PROFILE_IMAGE_TYPES, x ∈ ALLOWED_FILE_TYPES) :=
  ⟨by decide, by decide, by decide, by decide,
    c4_size_ceilings "application/pdf" (10 * 1024 * 1024 + 1) "image/png"
      (5 * 1024 * 1024 + 1) (by decide) (by decide) (by decide) (by decide)⟩

/-- Claim C1, counterexample: the claim promises that replacing the password
by one of at least 6 characters makes the same submission succeed, but the
source checks `password.trim().length >= 6`, so the six-character password
consisting of six spaces (length 6) still fails with `WeakPassword`. -/
theorem c1_counterexample :
    ("      " : String).length = 6 ∧
      build { encryptEnabled := true, password := "      ", compressEnabled := false }
          "a.png" = Except.error ConfigurationError.WeakPassword := by
  exact ⟨rfl, rfl⟩

/-- Claim C1 (amended): with encryption enabled and a password of fewer than
6 characters, submission fails with `WeakPassword` and leaves the workflow
state unchanged; replacing the password by one whose trimmed length is at
least 6 makes the same submission succeed. -/
theorem c1_weak_password_blocks_submit (d : DraftState) (fn p2 : String)
    (s : SystemState) (henc : d.encryptEnabled = true)
    (hshort : d.password.length < 6) (hdraft : s.draft = some d)
    (hlong : 6 ≤ (jsTrim p2).length) :
    build d fn = Except.error ConfigurationError.WeakPassword ∧
      submitSettings s = s ∧
      build { d with password := p2 } fn =
        Except.ok (handleSaveSettings { d with password := p2 } fn) := by
  have htrim : (jsTrim d.password).length < 6 :=
    lt_of_le_of_lt (jsTrim_length_le d.password) hshort
  have hcp : canProceed d = false := by
    simp [canProceed, henc]
    omega
  have hcp2 : canProceed { d with password := p2 } = true := by
    simp [canProceed, henc, hlong]
  exact ⟨by simp [build, hcp], by simp [submitSettings, hdraft, hcp],
    by simp [build, hcp2]⟩

/-- Claim C1, witness: with the three-character password "abc" the
submission fails and the workflow state is untouched; with "abcdef" it
succeeds. -/
theorem c1_weak_password_blocks_submit_witness :
    ({ encryptEnabled := true, password := "abc", compressEnabled := false } :
        DraftState).encryptEnabled = true ∧
      ("abc" : String).length < 6 ∧
      6 ≤ (jsTrim "abcdef").length ∧
      (build { encryptEnabled := true, password := "abc", compressEnabled := false }
          "a.png" = Except.error ConfigurationError.WeakPassword ∧
        submitSettings
            { isLoggedIn := true, username := "alice", currentPage := Page.processing
            , selectedFile := some { name := "a.png", size := 1024, type := "image/png" }
            , uploadFiles := []
            , draft := some { encryptEnabled := true, password := "abc"
                            , compressEnabled := false } } =
          { isLoggedIn := true, username := "alice", currentPage := Page.processing
          , selectedFile := some { name := "a.png", size := 1024, type := "image/png" }
          , uploadFiles := []
          , draft := some { encryptEnabled := true, password := "abc"
                          , compressEnabled := false } } ∧
        build { ({ encryptEnabled := true, password := "abc"
                 , compressEnabled := false } : DraftState)
            with password := "abcdef" } "a.png" =
          Except.ok (handleSaveSettings
            { ({ encryptEnabled := true, password := "abc"
               , compressEnabled := false } : DraftState)
              with password := "abcdef" } "a.png")) :=
  ⟨rfl, by decide, by decide,
    c1_weak_password_blocks_submit
      { encryptEnabled := true, password := "abc", compressEnabled := false }
      "a.png" "abcdef"
      { isLoggedIn := true, username := "alice", currentPage := Page.processing
      , selectedFile := some { name := "a.png", size := 1024, type := "image/png" }
      , uploadFiles := []
      , draft := some { encryptEnabled := true, password := "abc"
                      , compressEnabled := false } }
      rfl (by decide) rfl (by decide)⟩

/-- Claim C2, counterexample: the configuration submitted with both flags
enabled is exactly the four-field record of the source's `ProcessingConfig`
interface; the token "encrypt-then-compress" is recorded in none of its
fields (the two remaining fields are booleans), so the claim that the
ordering is a field of the submitted configuration fails at this input. -/
theorem c2_counterexample :
    handleSaveSettings
        { encryptEnabled := true, password := "abcdef", compressEnabled := true }
        "a.png" =
      { compress := true, encrypt := true, password := some "abcdef"
      , outputFileName := "a.png" } ∧
      ({ compress := true, encrypt := true, password := some "abcdef"
       , outputFileName := "a.png" } : ProcessingConfig).password ≠
        some "encrypt-then-compress" ∧
      ({ compress := true, encrypt := true, password := some "abcdef"
       , outputFileName := "a.png" } : ProcessingConfig).outputFileName ≠
        "encrypt-then-compress" :=
  ⟨rfl, by decide, by decide⟩

/-- Claim C2 (amended): whatever order the user toggled the flags in, a
draft with both flags enabled displays the fixed ordering note "Files will
be first encrypted, then compressed." — the encrypt-then-compress ordering
is fixed by the component — but the submitted configuration consists of
exactly the four fields `compress`, `encrypt`, `password`, `outputFileName`
and carries no ordering field. -/
theorem c2_ordering_is_display_note_only (es : List SettingsEvent) (fn : String)
    (h1 : (applyEvents initialDraft es).encryptEnabled = true)
    (h2 : (applyEvents initialDraft es).compressEnabled = true) :
    processingOrderNote (applyEvents initialDraft es) =
        some "Files will be first encrypted, then compressed." ∧
      handleSaveSettings (applyEvents initialDraft es) fn =
        { compress := true, encrypt := true
        , password := some (applyEvents initialDraft es).password
        , outputFileName := fn } ∧
      ∀ c : ProcessingConfig,
        c = { compress := c.compress, encrypt := c.encrypt
            , password := c.password, outputFileName := c.outputFileName } := by
  refine ⟨by simp [processingOrderNote, h1, h2],
    by simp [handleSaveSettings, h1, h2], fun c => rfl⟩

/-- Claim C2, witness: toggling compression before encryption (the order
opposite to the recorded ordering) still yields the fixed note and the
four-field configuration. -/
theorem c2_ordering_is_display_note_only_witness :
    (applyEvents initialDraft
        [SettingsEvent.setCompress true, SettingsEvent.setPassword "abcdef",
          SettingsEvent.setEncrypt true]).encryptEnabled = true ∧
      (applyEvents initialDraft
        [SettingsEvent.setCompress true, SettingsEvent.setPassword "abcdef",
          SettingsEvent.setEncrypt true]).compressEnabled = true ∧
      (processingOrderNote (applyEvents initialDraft
          [SettingsEvent.setCompress true, SettingsEvent.setPassword "abcdef",
            SettingsEvent.setEncrypt true]) =
          some "Files will be first encrypted, then compressed." ∧
        handleSaveSettings (applyEvents initialDraft
            [SettingsEvent.setCompress true, SettingsEvent.setPassword "abcdef",
              SettingsEvent.setEncrypt true]) "a.png" =
          { compress := true, encrypt := true
          , password := some (applyEvents initialDraft
              [SettingsEvent.setCompress true, SettingsEvent.setPassword "abcdef",
                SettingsEvent.setEncrypt true]).password
          , outputFileName := "a.png" } ∧
        ∀ c : ProcessingConfig,
          c = { compress := c.compress, encrypt := c.encrypt
              , password := c.password, outputFileName := c.outputFileName }) :=
  ⟨rfl, rfl,
    c2_ordering_is_display_note_only
      [SettingsEvent.setCompress true, SettingsEvent.setPassword "abcdef",
        SettingsEvent.setEncrypt true] "a.png" rfl rfl⟩

/-- Claim C9: from the completed page, "process another" returns to the
upload page with the selected file cleared, the candidate list reset to
empty, and no residual draft configuration — whatever the prior draft
contained. -/
theorem c9_restart_clears_state (s : SystemState)
    (_h : s.currentPage = Page.complete) :
    handleProcessAnother s =
      { isLoggedIn := s.isLoggedIn, username := s.username
      , currentPage := Page.upload, selectedFile := none
      , uploadFiles := [], draft := none } := by
  simp [handleProcessAnother]

/-- Claim C9, witness: restarting from a completed workflow whose draft
still holds an encryption password clears every candidate-related field. -/
theorem c9_restart_clears_state_witness :
    ({ isLoggedIn := true, username := "alice", currentPage := Page.complete
     , selectedFile := some { name := "a.png", size := 1024, type := "image/png" }
     , uploadFiles := [{ id := "f1"
                       , file := { name := "a.png", size := 1024, type := "image/png" }
                       , status := UploadStatus.success, progress := 100
                       , error := none }]
     , draft := some { encryptEnabled := true, password := "abcdef"
                     , compressEnabled := true } } : SystemState).currentPage =
        Page.complete ∧
      handleProcessAnother
          { isLoggedIn := true, username := "alice", currentPage := Page.complete
          , selectedFile := some { name := "a.png", size := 1024, type := "image/png" }
          , uploadFiles := [{ id := "f1"
                            , file := { name := "a.png", size := 1024, type := "image/png" }
                            , status := UploadStatus.success, progress := 100
                            , error := none }]
          , draft := some { encryptEnabled := true, password := "abcdef"
                          , compressEnabled := true } } =
        { isLoggedIn := true, username := "alice", currentPage := Page.upload
        , selectedFile := none, uploadFiles := [], draft := none } :=
  ⟨rfl, c9_restart_clears_state
    { isLoggedIn := true, username := "alice", currentPage := Page.complete
    , selectedFile := some { name := "a.png", size := 1024, type := "image/png" }
    , uploadFiles := [{ id := "f1"
                      , file := { name := "a.png", size := 1024, type := "image/png" }
                      , status := UploadStatus.success, progress := 100
                      , error := none }]
    , draft := some { encryptEnabled := true, password := "abcdef"
                    , compressEnabled := true } } rfl⟩

/-- Claim C10: when encryption is disabled at submission time, the typed
password does not influence the submitted configuration: two drafts
differing only in the password build the same configuration, the build
succeeds, and the configuration's password field is `none`. -/
theorem c10_no_password_leak (d : DraftState) (p fn : String)
    (h : d.encryptEnabled = false) :
    build d fn = build { d with password := p } fn ∧
      build d fn = Except.ok
        { compress := d.compressEnabled, encrypt := false
        , password := none, outputFileName := fn } := by
  obtain ⟨e, pw, cmp⟩ := d
  have h2 : e = false := h
  subst h2
  exact ⟨rfl, rfl⟩

/-- Claim C10, witness: a draft holding the typed password "topsecret" with
encryption off submits the same configuration as one holding "other", and
that configuration carries no password. -/
theorem c10_no_password_leak_witness :
    ({ encryptEnabled := false, password := "topsecret", compressEnabled := true } :
        DraftState).encryptEnabled = false ∧
      (build { encryptEnabled := false, password := "topsecret", compressEnabled := true }
          "a.png" =
        build { ({ encryptEnabled := false, password := "topsecret"
                 , compressEnabled := true } : DraftState) with password := "other" }
          "a.png" ∧
      build { encryptEnabled := false, password := "topsecret", compressEnabled := true }
          "a.png" =
        Except.ok { compress := true, encrypt := false, password := none
                  , outputFileName := "a.png" }) :=
  ⟨rfl, c10_no_password_leak
    { encryptEnabled := false, password := "topsecret", compressEnabled := true }
    "other" "a.png" rfl⟩

/-- Claim C5, counterexample: removing the only mid-transfer candidate
(id "f1", progress 30) leaves an empty tracked collection — the entry is
discarded entirely, so no tracker is put into a `Failed(Aborted)` state
(the source's status union has no aborted value and `removeFile` records
nothing). -/
theorem c5_counterexample :
    removeFile "f1"
        [{ id := "f1", file := { name := "a.png", size := 1024, type := "image/png" }
         , status := UploadStatus.uploading, progress := 30, error := none }] =
      ([] : List UploadedFile) := rfl

/-- Claim C5 (amended): removing a candidate mid-transfer discards its entry
from the tracked collection (no entry with its id remains, so no
`Failed(Aborted)` state is recorded), and every advancement callback
scheduled before the removal is a no-op on the collection afterwards: any
number of further timer firings leaves the files list unchanged. -/
theorem c5_removed_candidate_no_ops (fid : String) (fs : List UploadedFile)
    (p : Nat) (a : Bool) (n : Nat) :
    ((removeFile fid fs).all fun f => f.id != fid) = true ∧
      (simRun fid { progress := p, active := a, files := removeFile fid fs } n).files =
        removeFile fid fs := by
  have habs : ∀ f ∈ removeFile fid fs, f.id ≠ fid := by
    intro f hf
    simp only [removeFile, List.mem_filter, bne_iff_ne] at hf
    exact hf.2
  constructor
  · simp only [List.all_eq_true, bne_iff_ne]
    exact habs
  · induction n with
    | zero => rfl
    | succ m ih =>
      have hm : ∀ f ∈ (simRun fid
          { progress := p, active := a, files := removeFile fid fs } m).files,
          f.id ≠ fid := by
        rw [ih]; exact habs
      rw [simRun_succ, simStep_files_of_absent fid _ hm, ih]

/-- Claim C6: in a single-candidate transfer run, after any number of timer
firings the tracked progress is at most 100, never decreases from one firing
to the next, equals exactly 100 whenever the status is success, and once the
status is no longer uploading a further firing changes nothing. -/
theorem c6_progress_invariants (i : String) (fd : FileDesc) (n : Nat) :
    (trackedFile i fd n).progress ≤ 100 ∧
      (trackedFile i fd n).progress ≤ (trackedFile i fd (n + 1)).progress ∧
      ((trackedFile i fd n).status = UploadStatus.success →
        (trackedFile i fd n).progress = 100) ∧
      ((trackedFile i fd n).status ≠ UploadStatus.uploading →
        simRun i (initSim i fd) (n + 1) = simRun i (initSim i fd) n) := by
  have h := simRun_init_closed i fd n
  have h2 := simRun_init_closed i fd (n + 1)
  unfold trackedFile
  rw [h, h2]
  by_cases h9 : n ≤ 9
  · by_cases h8 : n ≤ 8
    · rw [if_pos h9, if_pos (by omega : n + 1 ≤ 9)]
      refine ⟨?_, ?_, ?_, ?_⟩
      · show 10 * n ≤ 100
        omega
      · show 10 * n ≤ 10 * (n + 1)
        omega
      · intro hcon
        simp at hcon
      · intro hcon
        simp at hcon
    · have hn : n = 9 := by omega
      subst hn
      rw [if_pos h9, if_neg (by omega : ¬ 9 + 1 ≤ 9)]
      refine ⟨?_, ?_, ?_, ?_⟩
      · show 10 * 9 ≤ 100
        omega
      · show 10 * 9 ≤ 100
        omega
      · intro hcon
        simp at hcon
      · intro hcon
        simp at hcon
  · rw [if_neg h9, if_neg (by omega : ¬ n + 1 ≤ 9)]
    exact ⟨le_refl 100, le_refl 100, fun _ => rfl, fun _ => rfl⟩

/-- Claim C6, witness: the invariants at the tenth firing of the transfer of
a 1 KiB PNG, the firing at which the tracker reaches success at exactly 100. -/
theorem c6_progress_invariants_witness :
    (trackedFile "f1" { name := "a.png", size := 1024, type := "image/png" } 10).progress
        ≤ 100 ∧
      (trackedFile "f1" { name := "a.png", size := 1024, type := "image/png" } 10).progress
        ≤ (trackedFile "f1" { name := "a.png", size := 1024, type := "image/png" }
            (10 + 1)).progress ∧
      ((trackedFile "f1" { name := "a.png", size := 1024, type := "image/png" } 10).status =
          UploadStatus.success →
        (trackedFile "f1" { name := "a.png", size := 1024, type := "image/png" }
          10).progress = 100) ∧
      ((trackedFile "f1" { name := "a.png", size := 1024, type := "image/png" } 10).status ≠
          UploadStatus.uploading →
        simRun "f1" (initSim "f1" { name := "a.png", size := 1024, type := "image/png" })
            (10 + 1) =
          simRun "f1" (initSim "f1" { name := "a.png", size := 1024, type := "image/png" })
            10) :=
  c6_progress_invariants "f1" { name := "a.png", size := 1024, type := "image/png" } 10

/-- Claim C7, counterexample: at original size 1 byte with compression on,
the source (`Math.round(1 * (1 - 0.4))`) yields 1, while the claimed
formula `floor(1 * (1 - 0.4))` yields 0. -/
theorem c7_counterexample :
    getEstimatedSize true 1 = 1 ∧ specEstimatedSize true 1 = 0 := by
  constructor
  · norm_num [getEstimatedSize, jsRound, getCompressionReduction]
  · norm_num [specEstimatedSize]

/-- Claim C7 (amended): the estimate is deterministic in the size and flag:
it equals the original size when compression is off, and with compression on
it equals `Math.round(size * (1 - 0.4))`, which in exact arithmetic is
`(6 * size + 5) / 10` in integer division (round-half-up of `3/5` of the
size) — not the floor the claim states; the reduction factor is the fixed
constant `0.4`. -/
theorem c7_estimate_is_round (n : Nat) :
    getEstimatedSize false n = (n : ℤ) ∧
      getEstimatedSize true n = (((6 * n + 5) / 10 : ℕ) : ℤ) ∧
      getCompressionReduction true = 2 / 5 := by
  refine ⟨by simp [getEstimatedSize], ?_, by norm_num [getCompressionReduction]⟩
  have key : (n : ℚ) * (1 - getCompressionReduction true) + 1 / 2 =
      ((6 * n + 5 : ℕ) : ℚ) / 10 := by
    norm_num [getCompressionReduction]
    ring
  show jsRound ((n : ℚ) * (1 - getCompressionReduction true)) = (((6 * n + 5) / 10 : ℕ) : ℤ)
  unfold jsRound
  rw [key]
  exact_mod_cast Rat.floor_natCast_div_natCast (6 * n + 5) 10

/-- Claim C8, counterexample: the reference for the name "my file.png" is
the raw concatenation, still containing the space character; it is not the
percent-encoded locator, so the name component is not escaped/encoded. -/
theorem c8_counterexample :
    fileUrl "my file.png" = "https://files.example.com/download/my file.png" ∧
      (fileUrl "my file.png").data.contains ' ' = true ∧
      fileUrl "my file.png" ≠ "https://files.example.com/download/my%20file.png" :=
  ⟨rfl, by decide, by decide⟩

/-- Claim C8 (amended): the artifact reference is built deterministically
from the candidate's name — equal names give equal references and distinct
names give distinct references — by appending the name verbatim (character
for character, with no escaping or encoding) to the fixed service address. -/
theorem c8_reference_deterministic_verbatim (n1 n2 : String) :
    (fileUrl n1).data = ("https://files.example.com/download/" : String).data ++ n1.data ∧
      (fileUrl n1 = fileUrl n2 ↔ n1 = n2) := by
  refine ⟨by simp [fileUrl], ?_, fun h => by rw [h]⟩
  intro h
  have hd : ("https://files.example.com/download/" : String).data ++ n1.data =
      ("https://files.example.com/download/" : String).data ++ n2.data := by
    have hc := congrArg String.data h
    simpa [fileUrl] using hc
  have hdata : n1.data = n2.data := List.append_cancel_left hd
  cases n1
  cases n2
  exact congrArg String.mk hdata

/-- Claim C8, witness: the references of "a.png" and "b.png" are the
verbatim concatenations and differ exactly as the names differ. -/
theorem c8_reference_deterministic_verbatim_witness :
    (fileUrl "a.png").data =
        ("https://files.example.com/download/" : String).data ++ ("a.png" : String).data ∧
      (fileUrl "a.png" = fileUrl "b.png" ↔ ("a.png" : String) = "b.png") :=
  c8_reference_deterministic_verbatim "a.png" "b.png"
